import Mathlib

/-!
Verification of the SeisHub database client
(obspy.seishub/trunk/obspy/seishub/client.py).

The development is a shallow embedding of the client's resource-mapping and
response-decoding layer:

* the query encoder of Client._fetch (the kwargs-to-params loop),
* the waveform operations _WaveformMapperClient.getWaveform / getPreview /
  getPreviewByIds (band-code padding, no-data handling, trimming),
* the PAZ extraction algorithm _StationMapperClient.getPAZ (wildcard
  normalization, XPath sibling selection, complex-number reconstruction).

External collaborators (the HTTP transport, the pickle codec, the Stream
container with its trim operation, and the band-code table imported from
obspy.core.util) are passed in as explicit parameters, exactly in the shape
the source consumes them.  Timestamps (UTCDateTime values) are modelled as
rational numbers of seconds; the numeric payloads of metadata documents are
modelled as integers, since no claim depends on floating-point rounding.
-/

namespace SeisHubClient

/-! ## Query encoder (Client._fetch, lines 84-106)

Python keyword-argument values that reach the params loop: strings,
numbers, booleans, None, and tuples/lists of scalars.  Nested containers do
not occur in any call site of the client.
-/

/-- A scalar Python value as used in the client's keyword arguments. -/
inductive PyScalar : Type
  | str (s : String)
  | int (n : Int)
  | bool (b : Bool)
  | pyNone
deriving DecidableEq

/-- A Python value as used in the client's keyword arguments: a scalar or a
tuple/list of scalars. -/
inductive PyValue : Type
  | scalar (s : PyScalar)
  | tuple (es : List PyScalar)
  | list (es : List PyScalar)
deriving DecidableEq

/-- Python truthiness test used by the loop's `if not value: continue`:
empty string, zero, False and None are falsy. -/
def PyScalar.falsy : PyScalar → Bool
  | .str s => s == ""
  | .int n => n == 0
  | .bool b => !b
  | .pyNone => true

/-- Python truthiness of a keyword-argument value: falsy scalars and empty
containers are falsy. -/
def PyValue.falsy : PyValue → Bool
  | .scalar s => s.falsy
  | .tuple es => es.isEmpty
  | .list es => es.isEmpty

/-- Python str() of a scalar value. -/
def pyScalarStr : PyScalar → String
  | .str s => s
  | .int n => toString n
  | .bool b => if b then "True" else "False"
  | .pyNone => "None"

/-- Comma-separated rendering of container elements.  (Python renders
container elements with repr, which additionally quotes strings; no call
site of the encoder stringifies a container, so the quoting is elided.) -/
def pyScalarListStr (es : List PyScalar) : String :=
  String.intercalate ", " (es.map pyScalarStr)

/-- Python str() of a keyword-argument value. -/
def pyValueStr : PyValue → String
  | .scalar s => pyScalarStr s
  | .tuple es => "(" ++ pyScalarListStr es ++ ")"
  | .list es => "[" ++ pyScalarListStr es ++ "]"

/-- The two isinstance tests of Client._fetch: a tuple of length 2 or a
list of length 2 yields its two components, anything else yields none. -/
def rangeBounds : PyValue → Option (PyScalar × PyScalar)
  | .tuple [a, b] => some (a, b)
  | .list [a, b] => some (a, b)
  | _ => none

/-- The params-building loop of Client._fetch: falsy values are skipped,
two-element tuples/lists are expanded into min_/max_ parameters, every
other value becomes a single stringified parameter.  The params mapping is
modelled as the ordered list of key/value pairs inserted by the loop; the
final urllib.urlencode serialization is the external transport boundary. -/
def encodeParams : List (String × PyValue) → List (String × String)
  | [] => []
  | (key, value) :: rest =>
    if value.falsy then
      encodeParams rest
    else
      match rangeBounds value with
      | some (a, b) =>
          ("min_" ++ key, pyScalarStr a) :: ("max_" ++ key, pyScalarStr b) ::
            encodeParams rest
      | none => (key, pyValueStr value) :: encodeParams rest

/-! ## Waveform operations (_WaveformMapperClient, lines 156-263)

The transport plus pickle codec are modelled together: a fetch either
yields an empty body (the empty string, on which getWaveform's
`data == ''` and getPreview's `not data` tests fire) or a non-empty body
that unpickles to a stream with a given list of traces.  A pickled stream
is never the empty string, so the two cases are exhaustive.  The trace
type is an opaque parameter, as is Stream.trim (an obspy.core operation,
outside this package). -/

/-- The raw body returned by Client._fetch for a waveform/preview URL,
together with what pickle.loads would produce from it. -/
inductive RawResponse (τ : Type) : Type
  | emptyBody
  | pickled (s : List τ)
deriving DecidableEq

/-- Result of a waveform/preview operation. -/
inductive WaveformOutcome (τ : Type) : Type
  /-- IndexError from channel_id[0] on an empty channel code. -/
  | argIndexError
  /-- KeyError from BAND_CODE lookup of an unknown band character. -/
  | bandKeyError
  /-- The raised Exception("No waveform data available"). -/
  | noData
  | ok (s : List τ)
deriving DecidableEq

/-- A getWaveform call: the interval actually sent to the transport
(none when no fetch was issued) and the outcome. -/
structure WaveformCall (τ : Type) : Type where
  fetchedInterval : Option (ℚ × ℚ)
  outcome : WaveformOutcome τ
deriving DecidableEq

/-- getWaveform's response decoding, lines 203-208: empty body or a stream
with zero traces raises "No waveform data available". -/
def decodeWaveformBody {τ : Type} : RawResponse τ → WaveformOutcome τ
  | .emptyBody => .noData
  | .pickled s => if s.length = 0 then .noData else .ok s

/-- getPreview / getPreviewByIds response decoding, lines 233-237 and
259-263: only a falsy (empty) body raises; the unpickled stream is
returned without a zero-trace check. -/
def decodeStreamBody {τ : Type} : RawResponse τ → WaveformOutcome τ
  | .emptyBody => .noData
  | .pickled s => .ok s

/-- _WaveformMapperClient.getWaveform, lines 156-211.  BAND_CODE is the
band-to-nominal-sample-rate table imported from obspy.core.util (a partial
map, KeyError on missing band); transport maps the padded start/end
datetimes to the raw body; trim is Stream.trim.  String start/end times
are converted to UTCDateTime before the arithmetic, so the model takes
times directly as rationals. -/
def getWaveform {τ : Type} (BAND_CODE : Char → Option ℚ)
    (transport : ℚ → ℚ → RawResponse τ) (trim : List τ → ℚ → ℚ → List τ)
    (channel_id : String) (start_datetime end_datetime : ℚ) :
    WaveformCall τ :=
  match channel_id.toList with
  | [] => ⟨none, .argIndexError⟩
  | band_code :: _ =>
    match BAND_CODE band_code with
    | none => ⟨none, .bandKeyError⟩
    | some rate =>
      let s := start_datetime - 2 / rate
      let e := end_datetime + 2 / rate
      match decodeWaveformBody (transport s e) with
      | .ok stream => ⟨some (s, e), .ok (trim stream start_datetime end_datetime)⟩
      | other => ⟨some (s, e), other⟩

/-- _WaveformMapperClient.getPreview, lines 213-237, applied to the body
the transport returned for the assembled query. -/
def getPreview {τ : Type} (body : RawResponse τ) : WaveformOutcome τ :=
  decodeStreamBody body

/-- Line 256: a list of trace IDs is concatenated with commas before the
fetch. -/
def joinTraceIds (ids : List String) : String :=
  String.intercalate "," ids

/-- _WaveformMapperClient.getPreviewByIds, lines 239-263: trace IDs are
comma-joined, the body fetched for them is decoded like getPreview. -/
def getPreviewByIds {τ : Type} (transport : String → RawResponse τ)
    (trace_ids : List String) : WaveformOutcome τ :=
  decodeStreamBody (transport (joinTraceIds trace_ids))

/-! ## Station metadata documents and getPAZ (lines 294-404)

A station metadata document is the ordered list of children of the
station_control_header element (all the XPath expressions of getPAZ
select among these siblings).  Only the node kinds getPAZ touches are
distinguished; every other child is other_node. -/

/-- The numeric payload of a response_poles_and_zeros node, as read by
lines 388-398 of the source. -/
structure PazData : Type where
  real_pole : List Int
  imaginary_pole : List Int
  real_zero : List Int
  imaginary_zero : List Int
  A0_normalization_factor : Int
deriving DecidableEq

/-- A child of the station_control_header element. -/
inductive StationNode : Type
  | channel_identifier (channel_identifier location_identifier : String)
  | response_poles_and_zeros (data : PazData)
  | channel_sensitivity_gain (stage_sequence_number : Nat) (sensitivity_gain : Int)
  | other_node
deriving DecidableEq

/-- The XPath predicate
channel_identifier[channel_identifier=c and location_identifier=l]. -/
def isMatchingChannel (channel location : String) : StationNode → Bool
  | .channel_identifier c l => c == channel && l == location
  | _ => false

/-- Selects a response_poles_and_zeros node and yields its payload. -/
def selPazData : StationNode → Option PazData
  | .response_poles_and_zeros d => some d
  | _ => none

/-- Selects a channel_sensitivity_gain node with the given
stage_sequence_number (the XPath filter [stage_sequence_number='n']) and
yields its sensitivity_gain. -/
def selGainValue (stage : Nat) : StationNode → Option Int
  | .channel_sensitivity_gain s g => if s = stage then some g else none
  | _ => none

/-- Selects any channel_sensitivity_gain node and yields its
sensitivity_gain (lines 384-385 index the plain tag collection). -/
def selAnyGain : StationNode → Option Int
  | .channel_sensitivity_gain _ g => some g
  | _ => none

/-- lxml's evaluation of
anchor-pattern/following-sibling::selected-pattern followed by [0]: the
union, in document order, of the selected following siblings of every
anchor match; its first element is the first selected node preceded by
some anchor match.  The scan keeps a flag recording whether an anchor
match has been passed. -/
def xpathFirst {α : Type} (anchor : StationNode → Bool)
    (f : StationNode → Option α) : Bool → List StationNode → Option α
  | _, [] => none
  | seen, n :: rest =>
    match (if seen then f n else none) with
    | some a => some a
    | none => xpathFirst anchor f (seen || anchor n) rest

/-- The filtered branch of getPAZ, lines 359-380: three XPath
following-sibling selections anchored at the matching channel_identifier;
an empty XPath result makes the [0] indexing raise IndexError (the none
case). -/
def filteredSelect (doc : List StationNode) (channel location : String) :
    Option (PazData × Int × Int) :=
  match xpathFirst (isMatchingChannel channel location) selPazData false doc,
        xpathFirst (isMatchingChannel channel location) (selGainValue 0) false doc,
        xpathFirst (isMatchingChannel channel location) (selGainValue 1) false doc with
  | some pd, some sens, some seis => some (pd, sens, seis)
  | _, _, _ => none

/-- The unfiltered branch of getPAZ, lines 381-385: first
response_poles_and_zeros node, last channel_sensitivity_gain node, first
channel_sensitivity_gain node, each in document order; a missing tag makes
the objectify attribute access raise (the none case). -/
def unfilteredSelect (doc : List StationNode) :
    Option (PazData × Int × Int) :=
  match (doc.filterMap selPazData).head?,
        (doc.filterMap selAnyGain).getLast?,
        (doc.filterMap selAnyGain).head? with
  | some pd, some sens, some seis => some (pd, sens, seis)
  | _, _, _ => none

/-- Line 359: Python truthiness of the normalized filters decides the
branch. -/
def selectNodes (doc : List StationNode) (channel location : String) :
    Option (PazData × Int × Int) :=
  if (channel != "") || (location != "") then filteredSelect doc channel location
  else unfilteredSelect doc

/-- Lines 347-352: a filter containing a wildcard marker is replaced by
the empty string. -/
def hasWildcard (s : String) : Bool :=
  s.toList.contains '*' || s.toList.contains '?'

/-- The wildcard normalization applied to each filter independently. -/
def normalizeFilter (s : String) : String :=
  if hasWildcard s then "" else s

/-- Complex numbers as reconstructed by getPAZ; components are the numeric
values read from the document. -/
structure Cplx : Type where
  re : Int
  im : Int
deriving DecidableEq

def Cplx.ofInt (n : Int) : Cplx := ⟨n, 0⟩

def Cplx.add (a b : Cplx) : Cplx := ⟨a.re + b.re, a.im + b.im⟩

def Cplx.mul (a b : Cplx) : Cplx :=
  ⟨a.re * b.re - a.im * b.im, a.re * b.im + a.im * b.re⟩

/-- The Python literal 1j. -/
def imagUnit : Cplx := ⟨0, 1⟩

/-- Lines 388-396: zip the parallel real/imaginary sequences and map each
pair p to p[0] + p[1] * 1j. -/
def combineComplex (reals imags : List Int) : List Cplx :=
  (reals.zip imags).map fun p => Cplx.add (Cplx.ofInt p.1) (Cplx.mul (Cplx.ofInt p.2) imagUnit)

/-- The PAZ dictionary built by lines 386-404. -/
structure PazDict : Type where
  poles : List Cplx
  zeros : List Cplx
  gain : Int
  sensitivity : Int
  seismometer_gain : Option Int
deriving DecidableEq

/-- Result of a getPAZ call. -/
inductive PazOutcome : Type
  /-- The empty dictionary returned when the station list is empty. -/
  | emptyResult
  /-- IndexError from xpath(...)[0] on an empty node-set, or
  AttributeError from a missing tag in the unfiltered branch. -/
  | lookupError
  | ok (paz : PazDict)
deriving DecidableEq

/-- _StationMapperClient.getPAZ, lines 315-404.  The network/station/time
arguments only determine the station list returned by getList and the
document fetched by getXMLResource for station_list[0]; both round trips
are modelled by passing the list of documents directly. -/
def getPAZ (stationList : List (List StationNode))
    (location_id channel_id : String) (seismometer_gain : Bool) : PazOutcome :=
  match stationList with
  | [] => .emptyResult
  | doc :: _ =>
    match selectNodes doc (normalizeFilter channel_id) (normalizeFilter location_id) with
    | none => .lookupError
    | some (pd, sens, seis) =>
      .ok { poles := combineComplex pd.real_pole pd.imaginary_pole
            zeros := combineComplex pd.real_zero pd.imaginary_zero
            gain := pd.A0_normalization_factor
            sensitivity := sens
            seismometer_gain := if seismometer_gain then some seis else none }

/-! ## Document-order positions

Specification-side predicates used to state the claims: being the first
(resp. last) node of a list that a selector accepts, and being the first
node accepted by an anchor predicate.  They are phrased by index so the
theorems talk about document order directly. -/

/-- b is the value selected from the first node of l that f accepts. -/
def isFirstSuch {α β : Type} (f : α → Option β) (l : List α) (b : β) : Prop :=
  ∃ i, (l[i]?.bind f) = some b ∧ ∀ x ∈ l.take i, f x = none

/-- b is the value selected from the last node of l that f accepts. -/
def isLastSuch {α β : Type} (f : α → Option β) (l : List α) (b : β) : Prop :=
  ∃ i, (l[i]?.bind f) = some b ∧ ∀ x ∈ l.drop (i + 1), f x = none

/-- Position i holds the first node of l that the anchor accepts. -/
def firstMatchAt {α : Type} (anchor : α → Bool) (l : List α) (i : Nat) : Prop :=
  (∃ x, l[i]? = some x ∧ anchor x = true) ∧ ∀ x ∈ l.take i, anchor x = false

/-! ## Concrete sample data

Used by the witness theorems: a station metadata document shaped like the
documents the source's doctest describes (one channel_identifier followed
by a poles-and-zeros node and two gain stages, stage 1 before stage 0),
one lacking the stage-1 gain node, and a small waveform environment. -/

def samplePazData : PazData :=
  { real_pole := [1, 2], imaginary_pole := [3, 4],
    real_zero := [0], imaginary_zero := [0],
    A0_normalization_factor := 60077000 }

def sampleDoc : List StationNode :=
  [.channel_identifier "EHZ" "",
   .response_poles_and_zeros samplePazData,
   .channel_sensitivity_gain 1 2164,
   .channel_sensitivity_gain 0 2516800000]

def sampleDocNoStage1 : List StationNode :=
  [.channel_identifier "EHZ" "",
   .response_poles_and_zeros samplePazData,
   .channel_sensitivity_gain 0 2516800000]

def sampleRange : PyValue := .tuple [.str "2009-01-01", .str "2009-01-02"]

def sampleBandTable : Char → Option ℚ := fun c => if c = 'E' then some 80 else none

def sampleTransport : ℚ → ℚ → RawResponse Nat := fun _ _ => .pickled [7]

def sampleTransportEmpty : ℚ → ℚ → RawResponse Nat := fun _ _ => .emptyBody

def sampleTrim : List Nat → ℚ → ℚ → List Nat := fun s _ _ => s

/-! ## Supporting lemmas -/

theorem encodeParams_append (l₁ l₂ : List (String × PyValue)) :
    encodeParams (l₁ ++ l₂) = encodeParams l₁ ++ encodeParams l₂ := by
  induction l₁ with
  | nil => rfl
  | cons p rest ih =>
    obtain ⟨key, value⟩ := p
    by_cases hf : value.falsy
    · simp [encodeParams, hf, ih]
    · cases hr : rangeBounds value with
      | some ab => simp [encodeParams, hf, hr, ih]
      | none => simp [encodeParams, hf, hr, ih]

theorem rangeBounds_falsy {v : PyValue} {p : PyScalar × PyScalar}
    (h : rangeBounds v = some p) : v.falsy = false := by
  cases v with
  | scalar s => simp [rangeBounds] at h
  | tuple es =>
    match es with
    | [] => simp [rangeBounds] at h
    | [a] => simp [rangeBounds] at h
    | [a, b] => simp [PyValue.falsy]
    | a :: b :: c :: t => simp [rangeBounds] at h
  | list es =>
    match es with
    | [] => simp [rangeBounds] at h
    | [a] => simp [rangeBounds] at h
    | [a, b] => simp [PyValue.falsy]
    | a :: b :: c :: t => simp [rangeBounds] at h

theorem head_filterMap_of_first {α β : Type} (f : α → Option β) (l : List α)
    (b : β) (h : isFirstSuch f l b) : (l.filterMap f).head? = some b := by
  induction l generalizing b with
  | nil =>
    obtain ⟨i, hi, -⟩ := h
    simp at hi
  | cons a t ih =>
    obtain ⟨i, hi, hall⟩ := h
    cases i with
    | zero =>
      simp only [List.getElem?_cons_zero, Option.some_bind] at hi
      rw [List.filterMap_cons_some hi]
      rfl
    | succ k =>
      have ha : f a = none := hall a (by simp [List.take_succ_cons])
      rw [List.filterMap_cons_none ha]
      refine ih b ⟨k, by simpa using hi, fun x hx => hall x ?_⟩
      simp [List.take_succ_cons]
      exact Or.inr hx

theorem getLast_filterMap_of_last {α β : Type} (f : α → Option β) (l : List α)
    (b : β) (h : isLastSuch f l b) : (l.filterMap f).getLast? = some b := by
  induction l generalizing b with
  | nil =>
    obtain ⟨i, hi, -⟩ := h
    simp at hi
  | cons a t ih =>
    obtain ⟨i, hi, hall⟩ := h
    cases i with
    | zero =>
      simp only [List.getElem?_cons_zero, Option.some_bind] at hi
      have ht : t.filterMap f = [] := by
        refine List.filterMap_eq_nil_iff.mpr fun x hx => hall x ?_
        simpa using hx
      rw [List.filterMap_cons_some hi, ht]
      rfl
    | succ k =>
      have htail : (t.filterMap f).getLast? = some b := by
        refine ih b ⟨k, by simpa using hi, fun x hx => hall x ?_⟩
        simpa using hx
      have hne : t.filterMap f ≠ [] := by
        intro hnil
        rw [hnil] at htail
        simp at htail
      obtain ⟨d, l', hdl⟩ := List.exists_cons_of_ne_nil hne
      cases hfa : f a with
      | none => rw [List.filterMap_cons_none hfa]; exact htail
      | some c =>
        rw [List.filterMap_cons_some hfa, hdl, List.getLast?_cons_cons]
        rw [hdl] at htail
        exact htail

theorem head_filterMap_of_none {α β : Type} (f : α → Option β) (l : List α)
    (h : ∀ x ∈ l, f x = none) : (l.filterMap f).head? = none := by
  rw [List.filterMap_eq_nil_iff.mpr h]
  rfl

theorem xpathFirst_true {α : Type} (anchor : StationNode → Bool)
    (f : StationNode → Option α) (l : List StationNode) :
    xpathFirst anchor f true l = (l.filterMap f).head? := by
  induction l with
  | nil => rfl
  | cons n rest ih =>
    cases hfn : f n with
    | some a =>
      simp [xpathFirst, hfn, List.filterMap_cons_some hfn]
    | none =>
      simp [xpathFirst, hfn, List.filterMap_cons_none hfn, ih]

/-- Evaluating the following-sibling XPath: once the first anchor match
sits at position i, the [0]-indexed result is the first selected node
after position i. -/
theorem xpathFirst_from_match {α : Type} (anchor : StationNode → Bool)
    (f : StationNode → Option α) (l : List StationNode) (i : Nat)
    (h : firstMatchAt anchor l i) :
    xpathFirst anchor f false l = ((l.drop (i + 1)).filterMap f).head? := by
  induction l generalizing i with
  | nil =>
    obtain ⟨⟨x, hx, -⟩, -⟩ := h
    simp at hx
  | cons n rest ih =>
    obtain ⟨⟨x, hx, hax⟩, hall⟩ := h
    cases i with
    | zero =>
      simp only [List.getElem?_cons_zero, Option.some.injEq] at hx
      subst hx
      simp [xpathFirst, hax, xpathFirst_true]
    | succ k =>
      have han : anchor n = false := hall n (by simp [List.take_succ_cons])
      have hstep : xpathFirst anchor f false (n :: rest) =
          xpathFirst anchor f false rest := by
        simp [xpathFirst, han]
      rw [hstep, List.drop_succ_cons]
      refine ih k ⟨⟨x, by simpa using hx, hax⟩, fun y hy => hall y ?_⟩
      simp [List.take_succ_cons]
      exact Or.inr hy

theorem normalizeFilter_eq_self {s : String} (h : hasWildcard s = false) :
    normalizeFilter s = s := by
  simp [normalizeFilter, h]

theorem hasWildcard_empty : hasWildcard "" = false := by decide

theorem normalizeFilter_idem (s : String) :
    normalizeFilter (normalizeFilter s) = normalizeFilter s := by
  cases h : hasWildcard s with
  | true => simp [normalizeFilter, h, hasWildcard_empty]
  | false => simp [normalizeFilter, h]

/-- getPAZ only consumes its filters through the wildcard
normalization. -/
theorem getPAZ_normalize (sl : List (List StationNode))
    (location_id channel_id : String) (sg : Bool) :
    getPAZ sl location_id channel_id sg =
      getPAZ sl (normalizeFilter location_id) (normalizeFilter channel_id) sg := by
  cases sl with
  | nil => rfl
  | cons doc rest => simp [getPAZ, normalizeFilter_idem]

theorem combineComplex_cons (r i : Int) (rs is : List Int) :
    combineComplex (r :: rs) (i :: is) = Cplx.mk r i :: combineComplex rs is := by
  simp [combineComplex, Cplx.add, Cplx.mul, Cplx.ofInt, imagUnit]

theorem combineComplex_getElem (reals imags : List Int) (k : Nat) (r i : Int)
    (hr : reals[k]? = some r) (hi : imags[k]? = some i) :
    (combineComplex reals imags)[k]? = some (Cplx.mk r i) := by
  induction reals generalizing imags k with
  | nil => simp at hr
  | cons a rs ih =>
    cases imags with
    | nil => simp at hi
    | cons b is =>
      rw [combineComplex_cons]
      cases k with
      | zero =>
        simp only [List.getElem?_cons_zero, Option.some.injEq] at hr hi
        subst hr
        subst hi
        simp
      | succ k =>
        simp only [List.getElem?_cons_succ] at hr hi ⊢
        exact ih is k hr hi

/-! ## Claims -/

/-- Claim C4: for every PAZ node whose real-part and imaginary-part
sequences have equal length, the reconstruction pairs the sequences
positionally, forming real + imaginary*i at each index and preserving
index correspondence and order. -/
theorem claim_C4_positional_pairing (reals imags : List Int)
    (h : reals.length = imags.length) :
    (combineComplex reals imags).length = reals.length
  ∧ ∀ (k : Nat) (r i : Int), reals[k]? = some r → imags[k]? = some i →
      (combineComplex reals imags)[k]? = some (Cplx.mk r i) := by
  refine ⟨?_, fun k r i hr hi => combineComplex_getElem reals imags k r i hr hi⟩
  simp [combineComplex, h]

/-- Witness for C4 at the claim's own example: real parts [1, 2] with
imaginary parts [3, 4] yield [1+3i, 2+4i]. -/
theorem claim_C4_witness :
    (combineComplex [1, 2] [3, 4]).length = 2
  ∧ (combineComplex [1, 2] [3, 4])[0]? = some (Cplx.mk 1 3)
  ∧ (combineComplex [1, 2] [3, 4])[1]? = some (Cplx.mk 2 4) := by
  have h := claim_C4_positional_pairing [1, 2] [3, 4] (by decide)
  exact ⟨h.1, h.2 0 1 3 (by decide) (by decide), h.2 1 2 4 (by decide) (by decide)⟩

/-- Claim C6: the encoded query omits every falsy-valued key, encodes a
2-element tuple or list value (lo, hi) for key k as exactly the parameters
min_k=lo and max_k=hi with no bare k parameter, and encodes every other
value as a single name=value pair with default stringification. -/
theorem claim_C6_query_encoding (pre post : List (String × PyValue))
    (key : String) (value : PyValue) :
    (value.falsy = true →
       encodeParams (pre ++ (key, value) :: post) = encodeParams (pre ++ post))
  ∧ (∀ a b, rangeBounds value = some (a, b) →
       encodeParams (pre ++ (key, value) :: post) =
         encodeParams pre ++ ("min_" ++ key, pyScalarStr a) ::
           ("max_" ++ key, pyScalarStr b) :: encodeParams post)
  ∧ (value.falsy = false → rangeBounds value = none →
       encodeParams (pre ++ (key, value) :: post) =
         encodeParams pre ++ (key, pyValueStr value) :: encodeParams post) := by
  refine ⟨?_, ?_, ?_⟩
  · intro hf
    rw [encodeParams_append, encodeParams_append]
    simp [encodeParams, hf]
  · intro a b hr
    rw [encodeParams_append]
    have hf := rangeBounds_falsy hr
    simp [encodeParams, hf, hr]
  · intro hf hr
    rw [encodeParams_append]
    simp [encodeParams, hf, hr]

/-- Witness for C6 at the spec's scenario: the range value
("2009-01-01", "2009-01-02") under key start encodes to min_start and
max_start. -/
theorem claim_C6_witness :
    encodeParams ([] ++ ("start", sampleRange) :: []) =
      [("min_start", "2009-01-01"), ("max_start", "2009-01-02")] := by
  rw [(claim_C6_query_encoding [] [] "start" sampleRange).2.1
    (.str "2009-01-01") (.str "2009-01-02") rfl]
  rfl

/-- Claim C7: getPAZ returns the empty dictionary exactly when the station
list query matched zero stations, and raises nothing in that case. -/
theorem claim_C7_empty_station_list (stationList : List (List StationNode))
    (location_id channel_id : String) (sg : Bool) :
    getPAZ stationList location_id channel_id sg = .emptyResult ↔
      stationList = [] := by
  cases stationList with
  | nil => simp [getPAZ]
  | cons doc rest =>
    simp only [getPAZ]
    constructor
    · intro h
      cases hsel : selectNodes doc (normalizeFilter channel_id)
          (normalizeFilter location_id) with
      | none => simp [hsel] at h
      | some v =>
        obtain ⟨pd, sens, seis⟩ := v
        simp [hsel] at h
    · intro h
      simp at h

/-- Claim C8: a channel filter containing a wildcard marker is replaced by
the empty string before node selection, and likewise independently for the
location filter; wildcards are never matched against the document. -/
theorem claim_C8_wildcard_normalization (sl : List (List StationNode))
    (location_id channel_id : String) (sg : Bool) :
    (hasWildcard channel_id = true →
       getPAZ sl location_id channel_id sg = getPAZ sl location_id "" sg)
  ∧ (hasWildcard location_id = true →
       getPAZ sl location_id channel_id sg = getPAZ sl "" channel_id sg) := by
  constructor
  · intro h
    rw [getPAZ_normalize sl location_id channel_id sg,
        getPAZ_normalize sl location_id "" sg]
    simp [normalizeFilter, h, hasWildcard_empty]
  · intro h
    rw [getPAZ_normalize sl location_id channel_id sg,
        getPAZ_normalize sl "" channel_id sg]
    simp [normalizeFilter, h, hasWildcard_empty]

/-- Witness for C8: the wildcard filter EH* behaves like the unset
filter. -/
theorem claim_C8_witness :
    getPAZ [sampleDoc] "" "EH*" true = getPAZ [sampleDoc] "" "" true :=
  (claim_C8_wildcard_normalization [sampleDoc] "" "EH*" true).1 (by decide)

/-- Claim C1: with no channel and no location filter (both empty after
wildcard normalization), getPAZ takes the first response_poles_and_zeros
node in document order as the PAZ node, the last channel_sensitivity_gain
node as the sensitivity node and the first channel_sensitivity_gain node
as the seismometer-gain node. -/
theorem claim_C1_unfiltered_selection (doc : List StationNode)
    (rest : List (List StationNode)) (location_id channel_id : String)
    (sg : Bool) (pd : PazData) (gLast gFirst : Int)
    (hc : normalizeFilter channel_id = "")
    (hl : normalizeFilter location_id = "")
    (hpaz : isFirstSuch selPazData doc pd)
    (hsens : isLastSuch selAnyGain doc gLast)
    (hseis : isFirstSuch selAnyGain doc gFirst) :
    getPAZ (doc :: rest) location_id channel_id sg =
      .ok ⟨combineComplex pd.real_pole pd.imaginary_pole,
           combineComplex pd.real_zero pd.imaginary_zero,
           pd.A0_normalization_factor, gLast,
           if sg then some gFirst else none⟩ := by
  have h1 := head_filterMap_of_first selPazData doc pd hpaz
  have h2 := getLast_filterMap_of_last selAnyGain doc gLast hsens
  have h3 := head_filterMap_of_first selAnyGain doc gFirst hseis
  simp [getPAZ, hc, hl, selectNodes, unfilteredSelect, h1, h2, h3]

/-- Witness for C1: on a document with one PAZ node and two gain nodes
(stage 1 first, stage 0 last), the unfiltered call picks the last gain
node as sensitivity and the first as seismometer gain. -/
theorem claim_C1_witness :
    getPAZ [sampleDoc] "" "" true =
      .ok ⟨combineComplex samplePazData.real_pole samplePazData.imaginary_pole,
           combineComplex samplePazData.real_zero samplePazData.imaginary_zero,
           samplePazData.A0_normalization_factor, 2516800000, some 2164⟩ :=
  claim_C1_unfiltered_selection sampleDoc [] "" "" true samplePazData
    2516800000 2164 (by decide) (by decide)
    ⟨1, by decide, by decide⟩ ⟨3, by decide, by decide⟩ ⟨2, by decide, by decide⟩

/-- Claim C2: with a non-empty (wildcard-free) channel or location filter,
getPAZ selects the nearest following sibling of type
response_poles_and_zeros after the matching channel_identifier node, the
nearest following channel_sensitivity_gain sibling with stage 0 as the
sensitivity node and the nearest with stage 1 as the seismometer-gain
node; if any of the three is absent it raises an index/lookup error
rather than returning an empty result. -/
theorem claim_C2_filtered_selection (doc : List StationNode)
    (rest : List (List StationNode)) (location_id channel_id : String)
    (sg : Bool) (i : Nat)
    (hwc : hasWildcard channel_id = false)
    (hwl : hasWildcard location_id = false)
    (hne : channel_id ≠ "" ∨ location_id ≠ "")
    (hmatch : firstMatchAt (isMatchingChannel channel_id location_id) doc i) :
    (∀ pd g0 g1,
        isFirstSuch selPazData (doc.drop (i + 1)) pd →
        isFirstSuch (selGainValue 0) (doc.drop (i + 1)) g0 →
        isFirstSuch (selGainValue 1) (doc.drop (i + 1)) g1 →
        getPAZ (doc :: rest) location_id channel_id sg =
          .ok ⟨combineComplex pd.real_pole pd.imaginary_pole,
               combineComplex pd.real_zero pd.imaginary_zero,
               pd.A0_normalization_factor, g0,
               if sg then some g1 else none⟩)
  ∧ ((∀ x ∈ doc.drop (i + 1), selPazData x = none) ∨
     (∀ x ∈ doc.drop (i + 1), selGainValue 0 x = none) ∨
     (∀ x ∈ doc.drop (i + 1), selGainValue 1 x = none) →
       getPAZ (doc :: rest) location_id channel_id sg = .lookupError) := by
  have hcond : ((channel_id != "") || (location_id != "")) = true := by
    simp only [Bool.or_eq_true, bne_iff_ne]
    exact hne
  constructor
  · intro pd g0 g1 hpd hg0 hg1
    have h1 : xpathFirst (isMatchingChannel channel_id location_id)
        selPazData false doc = some pd := by
      rw [xpathFirst_from_match _ _ _ _ hmatch]
      exact head_filterMap_of_first _ _ _ hpd
    have h2 : xpathFirst (isMatchingChannel channel_id location_id)
        (selGainValue 0) false doc = some g0 := by
      rw [xpathFirst_from_match _ _ _ _ hmatch]
      exact head_filterMap_of_first _ _ _ hg0
    have h3 : xpathFirst (isMatchingChannel channel_id location_id)
        (selGainValue 1) false doc = some g1 := by
      rw [xpathFirst_from_match _ _ _ _ hmatch]
      exact head_filterMap_of_first _ _ _ hg1
    simp [getPAZ, selectNodes, filteredSelect, normalizeFilter_eq_self hwc,
      normalizeFilter_eq_self hwl, hcond, h1, h2, h3]
  · intro habs
    rcases habs with hA | hA | hA
    · have h1 : xpathFirst (isMatchingChannel channel_id location_id)
          selPazData false doc = none := by
        rw [xpathFirst_from_match _ _ _ _ hmatch]
        exact head_filterMap_of_none _ _ hA
      simp [getPAZ, selectNodes, filteredSelect, normalizeFilter_eq_self hwc,
        normalizeFilter_eq_self hwl, hcond, h1]
    · have h2 : xpathFirst (isMatchingChannel channel_id location_id)
          (selGainValue 0) false doc = none := by
        rw [xpathFirst_from_match _ _ _ _ hmatch]
        exact head_filterMap_of_none _ _ hA
      cases h1 : xpathFirst (isMatchingChannel channel_id location_id)
          selPazData false doc with
      | none =>
        simp [getPAZ, selectNodes, filteredSelect, normalizeFilter_eq_self hwc,
          normalizeFilter_eq_self hwl, hcond, h1]
      | some pd =>
        simp [getPAZ, selectNodes, filteredSelect, normalizeFilter_eq_self hwc,
          normalizeFilter_eq_self hwl, hcond, h1, h2]
    · have h3 : xpathFirst (isMatchingChannel channel_id location_id)
          (selGainValue 1) false doc = none := by
        rw [xpathFirst_from_match _ _ _ _ hmatch]
        exact head_filterMap_of_none _ _ hA
      cases h1 : xpathFirst (isMatchingChannel channel_id location_id)
          selPazData false doc with
      | none =>
        simp [getPAZ, selectNodes, filteredSelect, normalizeFilter_eq_self hwc,
          normalizeFilter_eq_self hwl, hcond, h1]
      | some pd =>
        cases h2 : xpathFirst (isMatchingChannel channel_id location_id)
            (selGainValue 0) false doc with
        | none =>
          simp [getPAZ, selectNodes, filteredSelect, normalizeFilter_eq_self hwc,
            normalizeFilter_eq_self hwl, hcond, h1, h2]
        | some g0 =>
          simp [getPAZ, selectNodes, filteredSelect, normalizeFilter_eq_self hwc,
            normalizeFilter_eq_self hwl, hcond, h1, h2, h3]

/-- Witness for C2: the channel filter EHZ matches the first node of the
sample document; the nearest following siblings are picked out. -/
theorem claim_C2_witness :
    getPAZ [sampleDoc] "" "EHZ" true =
      .ok ⟨combineComplex samplePazData.real_pole samplePazData.imaginary_pole,
           combineComplex samplePazData.real_zero samplePazData.imaginary_zero,
           samplePazData.A0_normalization_factor, 2516800000, some 2164⟩ :=
  (claim_C2_filtered_selection sampleDoc [] "" "EHZ" true 0
      (by decide) (by decide) (Or.inl (by decide))
      ⟨⟨.channel_identifier "EHZ" "", by decide, by decide⟩, by decide⟩).1
    samplePazData 2516800000 2164
    ⟨0, by decide, by decide⟩ ⟨2, by decide, by decide⟩ ⟨1, by decide, by decide⟩

/-- Claim C10: in the filtered branch the stage-1 seismometer-gain sibling
lookup is evaluated even when the seismometer_gain flag is false, so a
document whose match has a following PAZ sibling and a stage-0 gain
sibling but no stage-1 gain sibling makes getPAZ raise a lookup error. -/
theorem claim_C10_eager_stage1_lookup (doc : List StationNode)
    (rest : List (List StationNode)) (location_id channel_id : String)
    (i : Nat) (pd : PazData) (g0 : Int)
    (hwc : hasWildcard channel_id = false)
    (hwl : hasWildcard location_id = false)
    (hne : channel_id ≠ "" ∨ location_id ≠ "")
    (hmatch : firstMatchAt (isMatchingChannel channel_id location_id) doc i)
    (hpaz : isFirstSuch selPazData (doc.drop (i + 1)) pd)
    (hg0 : isFirstSuch (selGainValue 0) (doc.drop (i + 1)) g0)
    (hg1 : ∀ x ∈ doc.drop (i + 1), selGainValue 1 x = none) :
    getPAZ (doc :: rest) location_id channel_id false = .lookupError := by
  have hcond : ((channel_id != "") || (location_id != "")) = true := by
    simp only [Bool.or_eq_true, bne_iff_ne]
    exact hne
  have h1 : xpathFirst (isMatchingChannel channel_id location_id)
      selPazData false doc = some pd := by
    rw [xpathFirst_from_match _ _ _ _ hmatch]
    exact head_filterMap_of_first _ _ _ hpaz
  have h2 : xpathFirst (isMatchingChannel channel_id location_id)
      (selGainValue 0) false doc = some g0 := by
    rw [xpathFirst_from_match _ _ _ _ hmatch]
    exact head_filterMap_of_first _ _ _ hg0
  have h3 : xpathFirst (isMatchingChannel channel_id location_id)
      (selGainValue 1) false doc = none := by
    rw [xpathFirst_from_match _ _ _ _ hmatch]
    exact head_filterMap_of_none _ _ hg1
  simp [getPAZ, selectNodes, filteredSelect, normalizeFilter_eq_self hwc,
    normalizeFilter_eq_self hwl, hcond, h1, h2, h3]

/-- Witness for C10: the sample document without a stage-1 gain node makes
the filtered call fail although seismometer_gain is false. -/
theorem claim_C10_witness :
    getPAZ [sampleDocNoStage1] "" "EHZ" false = .lookupError :=
  claim_C10_eager_stage1_lookup sampleDocNoStage1 [] "" "EHZ" 0 samplePazData
    2516800000 (by decide) (by decide) (Or.inl (by decide))
    ⟨⟨.channel_identifier "EHZ" "", by decide, by decide⟩, by decide⟩
    ⟨0, by decide, by decide⟩ ⟨1, by decide, by decide⟩ (by decide)

theorem getWaveform_fetchedInterval {τ : Type} (BAND_CODE : Char → Option ℚ)
    (transport : ℚ → ℚ → RawResponse τ) (trim : List τ → ℚ → ℚ → List τ)
    (channel_id : String) (start_datetime end_datetime ps pe : ℚ)
    (hfi : (getWaveform BAND_CODE transport trim channel_id start_datetime
        end_datetime).fetchedInterval = some (ps, pe)) :
    ∃ b cs rate, channel_id.toList = b :: cs ∧ BAND_CODE b = some rate ∧
      ps = start_datetime - 2 / rate ∧ pe = end_datetime + 2 / rate := by
  cases hc : channel_id.toList with
  | nil =>
    have hc' : channel_id.data = [] := hc
    simp [getWaveform, hc'] at hfi
  | cons b cs =>
    have hc' : channel_id.data = b :: cs := hc
    cases hb : BAND_CODE b with
    | none => simp [getWaveform, hc', hb] at hfi
    | some rate =>
      refine ⟨b, cs, rate, rfl, hb, ?_⟩
      cases htr : transport (start_datetime - 2 / rate) (end_datetime + 2 / rate) with
      | emptyBody =>
        simp [getWaveform, hc', hb, htr, decodeWaveformBody] at hfi
        exact ⟨hfi.1.symm, hfi.2.symm⟩
      | pickled stream =>
        by_cases hlen : stream.length = 0 <;>
          simp [getWaveform, hc', hb, htr, decodeWaveformBody, hlen] at hfi <;>
          exact ⟨hfi.1.symm, hfi.2.symm⟩

theorem getWaveform_noData_of_body {τ : Type} (BAND_CODE : Char → Option ℚ)
    (transport : ℚ → ℚ → RawResponse τ) (trim : List τ → ℚ → ℚ → List τ)
    (channel_id : String) (b : Char) (cs : List Char)
    (start_datetime end_datetime rate : ℚ)
    (hc : channel_id.toList = b :: cs) (hb : BAND_CODE b = some rate)
    (hbody : transport (start_datetime - 2 / rate) (end_datetime + 2 / rate) =
        .emptyBody ∨
      transport (start_datetime - 2 / rate) (end_datetime + 2 / rate) =
        .pickled []) :
    (getWaveform BAND_CODE transport trim channel_id start_datetime
        end_datetime).outcome = .noData := by
  have hc' : channel_id.data = b :: cs := hc
  rcases hbody with h | h <;> simp [getWaveform, hc', hb, h, decodeWaveformBody]

/-- Claim C3 counterexample: a preview request whose body deserializes to
a zero-trace stream is returned as a successful zero-length stream, not
raised as the no-data condition the claim requires of getPreview. -/
theorem claim_C3_counterexample :
    getPreview (RawResponse.pickled ([] : List Nat)) = WaveformOutcome.ok []
  ∧ getPreview (RawResponse.pickled ([] : List Nat)) ≠ WaveformOutcome.noData := by
  constructor
  · rfl
  · simp [getPreview, decodeStreamBody]

/-- Claim C3 (amended): getWaveform fails with the no-data condition when
the fetched body is empty or deserializes to zero traces; getPreview and
getPreviewByIds fail with the no-data condition exactly when the fetched
body is empty (falsy), and return the deserialized stream - even one with
zero traces - otherwise. -/
theorem claim_C3_no_data (τ : Type) :
    (∀ (BAND_CODE : Char → Option ℚ) (transport : ℚ → ℚ → RawResponse τ)
       (trim : List τ → ℚ → ℚ → List τ) (channel_id : String)
       (start_datetime end_datetime ps pe : ℚ),
        (getWaveform BAND_CODE transport trim channel_id start_datetime
            end_datetime).fetchedInterval = some (ps, pe) →
        (transport ps pe = .emptyBody ∨ transport ps pe = .pickled []) →
        (getWaveform BAND_CODE transport trim channel_id start_datetime
            end_datetime).outcome = .noData)
  ∧ (∀ body : RawResponse τ, getPreview body = .noData ↔ body = .emptyBody)
  ∧ (∀ (transport : String → RawResponse τ) (ids : List String),
        getPreviewByIds transport ids = .noData ↔
          transport (joinTraceIds ids) = .emptyBody) := by
  refine ⟨?_, ?_, ?_⟩
  · intro BAND_CODE transport trim channel_id s e ps pe hfi hbody
    obtain ⟨b, cs, rate, hc, hb, hps, hpe⟩ :=
      getWaveform_fetchedInterval BAND_CODE transport trim channel_id s e ps pe hfi
    subst hps
    subst hpe
    exact getWaveform_noData_of_body BAND_CODE transport trim channel_id b cs
      s e rate hc hb hbody
  · intro body
    cases body <;> simp [getPreview, decodeStreamBody]
  · intro transport ids
    cases h : transport (joinTraceIds ids) <;>
      simp [getPreviewByIds, decodeStreamBody, h]

/-- Witness for C3 (amended): an empty body makes getWaveform raise the
no-data condition. -/
theorem claim_C3_witness :
    (getWaveform sampleBandTable sampleTransportEmpty sampleTrim "EHZ"
        0 100).outcome = WaveformOutcome.noData :=
  (claim_C3_no_data Nat).1 sampleBandTable sampleTransportEmpty sampleTrim
    "EHZ" 0 100 (0 - 2 / 80) (100 + 2 / 80) rfl (Or.inl rfl)

/-- Claim C5: for a request with band code b, the interval sent to the
transport is [start - 2/rate(b), end + 2/rate(b)], and the returned
stream is the fetched stream trimmed back to the originally requested
[start, end]. -/
theorem claim_C5_padding_and_trim {τ : Type} (BAND_CODE : Char → Option ℚ)
    (transport : ℚ → ℚ → RawResponse τ) (trim : List τ → ℚ → ℚ → List τ)
    (channel_id : String) (b : Char) (cs : List Char)
    (start_datetime end_datetime rate : ℚ) (stream : List τ)
    (hc : channel_id.toList = b :: cs)
    (hb : BAND_CODE b = some rate)
    (ht : transport (start_datetime - 2 / rate) (end_datetime + 2 / rate) =
        .pickled stream)
    (hne : stream ≠ []) :
    getWaveform BAND_CODE transport trim channel_id start_datetime end_datetime =
      ⟨some (start_datetime - 2 / rate, end_datetime + 2 / rate),
       .ok (trim stream start_datetime end_datetime)⟩ := by
  have hc' : channel_id.data = b :: cs := hc
  simp [getWaveform, hc', hb, ht, decodeWaveformBody, List.length_eq_zero, hne]

/-- Witness for C5: band code E with nominal rate 80 pads by 2/80 on each
side and trims the fetched stream back to the requested interval. -/
theorem claim_C5_witness :
    getWaveform sampleBandTable sampleTransport sampleTrim "EHZ" 0 100 =
      ⟨some (0 - 2 / 80, 100 + 2 / 80), .ok (sampleTrim [7] 0 100)⟩ :=
  claim_C5_padding_and_trim sampleBandTable sampleTransport sampleTrim "EHZ"
    'E' ['H', 'Z'] 0 100 80 [7] rfl rfl rfl (by simp)

/-- Claim C9: a channel code whose first character is not a key of the
band-code table makes getWaveform fail with the lookup error before any
transport call is issued (no interval is ever fetched, and the result
does not depend on the transport). -/
theorem claim_C9_unknown_band_code {τ : Type} (BAND_CODE : Char → Option ℚ)
    (transport : ℚ → ℚ → RawResponse τ) (trim : List τ → ℚ → ℚ → List τ)
    (channel_id : String) (b : Char) (cs : List Char)
    (start_datetime end_datetime : ℚ)
    (hc : channel_id.toList = b :: cs) (hb : BAND_CODE b = none) :
    getWaveform BAND_CODE transport trim channel_id start_datetime end_datetime =
      ⟨none, .bandKeyError⟩ := by
  have hc' : channel_id.data = b :: cs := hc
  simp [getWaveform, hc', hb]

/-- Witness for C9: band code X is not in the table; no fetch happens. -/
theorem claim_C9_witness :
    getWaveform sampleBandTable sampleTransport sampleTrim "XHZ" 0 100 =
      ⟨none, WaveformOutcome.bandKeyError⟩ :=
  claim_C9_unknown_band_code sampleBandTable sampleTransport sampleTrim "XHZ"
    'X' ['H', 'Z'] 0 100 rfl rfl

end SeisHubClient
